import Mathlib

/-!
Shallow embedding of the TTD-DR repository (Test-Time Diffusion Deep
Researcher).  Python strings are modelled as Lean `String`/`List Char`,
the Python floats that appear (scores with at most one decimal digit)
as `ℚ`, and every external collaborator (language model, web search,
vector retriever) as an explicit oracle function passed in as a
parameter, so each definition is a pure function of the program state
and the oracle replies.
-/

namespace TTDDR

/-- Characters matched by Python's regex `\s` and stripped by
`str.strip()` (ASCII whitespace; every input in this development is ASCII). -/
def isPySpace (c : Char) : Bool :=
  c = ' ' || c = '\t' || c = '\n' || c = '\r' || c = '\x0b' || c = '\x0c'

/-- Python `str.strip()` on a character list. -/
def pyStripChars (cs : List Char) : List Char :=
  ((cs.dropWhile isPySpace).reverse.dropWhile isPySpace).reverse

/-- Python `str.strip()`. -/
def pyStrip (s : String) : String := ⟨pyStripChars s.data⟩

/-- Python slice `s[:n]` on a string. -/
def pyTake (s : String) (n : Nat) : String := ⟨s.data.take n⟩

/-- Python `str.lower()` (ASCII case mapping suffices here). -/
def pyLower (cs : List Char) : List Char := cs.map Char.toLower

/-- Python `str.upper()` (ASCII case mapping suffices here). -/
def pyUpper (cs : List Char) : List Char := cs.map Char.toUpper

/-- Python substring containment `needle in hay`. -/
def pyContains (needle : List Char) : List Char → Bool
  | [] => needle.isPrefixOf []
  | c :: rest => needle.isPrefixOf (c :: rest) || pyContains needle rest

/-- Python `"\n".join(lines)`. -/
def joinNL : List String → String
  | [] => ""
  | [l] => l
  | l :: l2 :: rest => l ++ "\n" ++ joinNL (l2 :: rest)

/-- Python `str.find(c)`: index of the first occurrence, `-1` when absent. -/
def pyFindChar (cs : List Char) (c : Char) : Int :=
  match cs with
  | [] => -1
  | d :: rest =>
      if d = c then 0 else
      let r := pyFindChar rest c
      if r = -1 then -1 else r + 1

/-- Python `str.rfind(c)`: index of the last occurrence, `-1` when absent. -/
def pyRfindChar (cs : List Char) (c : Char) : Int :=
  match cs with
  | [] => -1
  | d :: rest =>
      let r := pyRfindChar rest c
      if r = -1 then (if d = c then 0 else -1) else r + 1

/-- Python slice `s[a:b]` for `0 ≤ a ≤ b` (the only case the code reaches). -/
def pySlice (cs : List Char) (a b : Nat) : List Char := (cs.drop a).take (b - a)

/-- JSON values: the model of the Python objects produced by `json.loads`. -/
inductive Json where
  | null : Json
  | bool : Bool → Json
  | num : ℚ → Json
  | str : String → Json
  | arr : List Json → Json
  | obj : List (String × Json) → Json

/-- Value of a digit string, most significant digit first. -/
def digitsToNat (ds : List Char) : Nat :=
  ds.foldl (fun acc c => acc * 10 + (c.toNat - '0'.toNat)) 0

/-- Body of a JSON string after the opening quote: plain characters up to
the closing quote (escape sequences are not needed by any input of this
development and are rejected, conservatively refusing instead of
mis-parsing). -/
def parseStringRest : List Char → Option (String × List Char)
  | [] => none
  | c :: rest =>
    if c = '"' then some ("", rest)
    else if c = '\\' then none
    else do
      let (s, r) ← parseStringRest rest
      pure (⟨c :: s.data⟩, r)

/-- A JSON number: optional sign, integer digits, optional decimal
fraction (exponents are not needed by any input of this development). -/
def parseNum (cs : List Char) : Option (Json × List Char) :=
  let (neg, cs1) : Bool × List Char :=
    match cs with
    | '-' :: r => (true, r)
    | _ => (false, cs)
  let ds := cs1.takeWhile Char.isDigit
  if ds.isEmpty then none else
  let rest := cs1.drop ds.length
  let (q, rest2) : ℚ × List Char :=
    match rest with
    | '.' :: r =>
      let fs := r.takeWhile Char.isDigit
      if fs.isEmpty then ((digitsToNat ds : ℚ), rest)
      else ((digitsToNat ds : ℚ) + (digitsToNat fs : ℚ) / (10 : ℚ) ^ fs.length, r.drop fs.length)
    | _ => ((digitsToNat ds : ℚ), rest)
  some (.num (if neg then -q else q), rest2)

mutual

/-- Recursive-descent parser for JSON values, the model of `json.loads`'
grammar on the subset this repository's inputs exercise (objects, arrays,
escape-free strings, numbers, `true`/`false`/`null`).  Everything outside
the grammar is rejected, exactly as `json.loads` rejects every non-JSON
text.  The fuel argument bounds nesting depth and only decreases on
recursive descent. -/
def parseVal : Nat → List Char → Option (Json × List Char)
  | 0, _ => none
  | fuel+1, cs =>
    match cs.dropWhile isPySpace with
    | '\x7b' :: rest =>
      (match rest.dropWhile isPySpace with
       | '\x7d' :: rest2 => some (.obj [], rest2)
       | _ => do
          let (ms, r) ← parseMembers fuel rest
          pure (.obj ms, r))
    | '[' :: rest =>
      (match rest.dropWhile isPySpace with
       | ']' :: rest2 => some (.arr [], rest2)
       | _ => do
          let (xs, r) ← parseItems fuel rest
          pure (.arr xs, r))
    | '"' :: rest => do
      let (s, r) ← parseStringRest rest
      pure (.str s, r)
    | 't' :: 'r' :: 'u' :: 'e' :: rest => some (.bool true, rest)
    | 'f' :: 'a' :: 'l' :: 's' :: 'e' :: rest => some (.bool false, rest)
    | 'n' :: 'u' :: 'l' :: 'l' :: rest => some (.null, rest)
    | c :: rest => parseNum (c :: rest)
    | [] => none

/-- Members of a JSON object after the opening brace. -/
def parseMembers : Nat → List Char → Option (List (String × Json) × List Char)
  | 0, _ => none
  | fuel+1, cs =>
    match cs.dropWhile isPySpace with
    | '"' :: rest => do
      let (k, r1) ← parseStringRest rest
      match r1.dropWhile isPySpace with
      | ':' :: r2 => do
        let (v, r3) ← parseVal fuel r2
        (match r3.dropWhile isPySpace with
         | ',' :: r4 => do
            let (ms, r5) ← parseMembers fuel r4
            pure ((k, v) :: ms, r5)
         | '\x7d' :: r4 => pure ([(k, v)], r4)
         | _ => none)
      | _ => none
    | _ => none

/-- Items of a JSON array after the opening bracket. -/
def parseItems : Nat → List Char → Option (List Json × List Char)
  | 0, _ => none
  | fuel+1, cs => do
    let (v, r) ← parseVal fuel cs
    match r.dropWhile isPySpace with
    | ',' :: r2 => do
      let (xs, r3) ← parseItems fuel r2
      pure (v :: xs, r3)
    | ']' :: r2 => pure ([v], r2)
    | _ => none

end

/-- `json.loads`: parse the whole text; anything but whitespace after the
value is an error.  One unit of fuel per character plus one is enough,
since every descent step consumes at least one character. -/
def json_loads (s : String) : Option Json :=
  match parseVal (s.length + 1) s.data with
  | some (j, rest) => if (rest.dropWhile isPySpace).isEmpty then some j else none
  | none => none

/-- The fallback plan built by `ResearchPlanner.generate_plan` when no
brace-delimited substring can be extracted. -/
def defaultPlan (query : String) : Json :=
  .obj [("sections", .arr [.obj [("title", .str "General Research"),
                                 ("questions", .arr [.str query])]])]

/-- `ResearchPlanner.generate_plan`, as a function of the model's raw
response text and the original query.  `Except.error ()` models an
uncaught exception: the `try` only catches the `JSONDecodeError` of the
first `json.loads`; the second `json.loads` sits inside the `except`
handler, so its `JSONDecodeError` propagates. -/
def generate_plan (responseContent : String) (query : String) : Except Unit Json :=
  match json_loads responseContent with
  | some j => .ok j
  | none =>
    let content := responseContent.data
    let start := pyFindChar content '\x7b'
    let stop := pyRfindChar content '\x7d' + 1
    if start ≠ -1 ∧ stop > start then
      match json_loads ⟨pySlice content start.toNat stop.toNat⟩ with
      | some j => .ok j
      | none => .error ()
    else .ok (defaultPlan query)

/-- Case-insensitive match of the literal `pat` at the head of the input
(how Python's `re` treats a literal under `re.IGNORECASE`); returns the
input after the literal. -/
def matchLit : List Char → List Char → Option (List Char)
  | [], cs => some cs
  | _ :: _, [] => none
  | p :: ps, c :: cs => if c.toLower = p.toLower then matchLit ps cs else none

/-- Whether the case-insensitive literal `pat` occurs anywhere in the
text: the presence test for a label such as `Score:` or `Feedback:`. -/
def hasCaselessLit (pat : List Char) : List Char → Bool
  | [] => (matchLit pat []).isSome
  | c :: rest => (matchLit pat (c :: rest)).isSome || hasCaselessLit pat rest

/-- The regex `Score:` `\s*` `(\d+(?:\.\d+)?)` of
`LLMEvaluator._extract_score`, attempted at the current position: the
literal label, optional whitespace, then the digit group (greedy, with an
optional decimal part).  Returns the text of capture group 1. -/
def matchScoreHere (cs : List Char) : Option (List Char) :=
  match matchLit "Score:".data cs with
  | none => none
  | some r1 =>
    let r2 := r1.dropWhile isPySpace
    let ds := r2.takeWhile Char.isDigit
    if ds.isEmpty then none
    else
      match r2.drop ds.length with
      | '.' :: r4 =>
        let fs := r4.takeWhile Char.isDigit
        if fs.isEmpty then some ds else some (ds ++ '.' :: fs)
      | _ => some ds

/-- `re.search` for the score pattern: try every position left to right. -/
def searchScore : List Char → Option (List Char)
  | [] => none
  | c :: rest =>
    match matchScoreHere (c :: rest) with
    | some g => some g
    | none => searchScore rest

/-- Python `float` on a captured score string of shape `\d+(\.\d+)?`. -/
def scoreVal (g : List Char) : ℚ :=
  let ds := g.takeWhile Char.isDigit
  match g.drop ds.length with
  | '.' :: fs => (digitsToNat ds : ℚ) + (digitsToNat fs : ℚ) / (10 : ℚ) ^ fs.length
  | _ => (digitsToNat ds : ℚ)

/-- `LLMEvaluator._extract_score`: the first score-pattern match, default
`5.0` when the pattern matches nowhere. -/
def extract_score (content : List Char) : ℚ :=
  match searchScore content with
  | some g => scoreVal g
  | none => 5

/-- The regex `Feedback:` `\s*` `(.+)` (IGNORECASE, DOTALL) of
`LLMEvaluator._extract_feedback` attempted at the current position,
composed with the `.strip()` the code applies to capture group 1.  After
the label, `\s*` is greedy but gives characters back so that `(.+)` can
take at least one, and `(.+)` under DOTALL runs to the end of the text;
stripping the group therefore equals stripping everything after the
label, provided anything follows the label at all. -/
def matchFeedbackHere (cs : List Char) : Option (List Char) :=
  match matchLit "Feedback:".data cs with
  | none => none
  | some [] => none
  | some (c :: r) => some (pyStripChars (c :: r))

/-- `re.search` for the feedback pattern: try every position left to right. -/
def searchFeedback : List Char → Option (List Char)
  | [] => none
  | c :: rest =>
    match matchFeedbackHere (c :: rest) with
    | some g => some g
    | none => searchFeedback rest

/-- `LLMEvaluator._extract_feedback`: the (stripped) first feedback-pattern
match, the whole text when the pattern matches nowhere. -/
def extract_feedback (content : List Char) : List Char :=
  match searchFeedback content with
  | some f => f
  | none => content

/-- `LLMEvaluator.evaluate_answer`: one judge model call (the oracle
`judge`), then the two regex extractions on its reply. -/
def evaluate_answer (judge : String → String → String)
    (question answer : String) : ℚ × String :=
  let content := judge question answer
  (extract_score content.data, ⟨extract_feedback content.data⟩)

/-- `SelfEvolution._evolve_variant`: up to `num_iterations` rounds of
judge-then-revise, stopping as soon as the judge's score reaches `8.0`.
`evalAnswer` models `self.evaluator.evaluate_answer` and `revise` models
`self._revise_with_feedback` (one model call each). -/
def evolve_variant (evalAnswer : String → String → ℚ × String)
    (revise : String → String → String → String)
    (question : String) : String → Nat → String
  | current, 0 => current
  | current, n+1 =>
    if 8 ≤ (evalAnswer question current).1 then current
    else evolve_variant evalAnswer revise question
      (revise question current (evalAnswer question current).2) n

/-- Number of `_revise_with_feedback` calls `_evolve_variant` performs. -/
def evolve_revisions (evalAnswer : String → String → ℚ × String)
    (revise : String → String → String → String)
    (question : String) : String → Nat → Nat
  | _, 0 => 0
  | current, n+1 =>
    if 8 ≤ (evalAnswer question current).1 then 0
    else evolve_revisions evalAnswer revise question
      (revise question current (evalAnswer question current).2) n + 1

/-- `SelfEvolution.evolve_answer`, its component model calls as oracles:
`variantGen i` models the i-th of the `num_variants` identical
`_generate_variants` calls (the hosted model may answer each one
differently) and `merge` models the single `_merge_variants` call. -/
def evolve_answer (variantGen : Nat → String → String → String)
    (evalAnswer : String → String → ℚ × String)
    (revise : String → String → String → String)
    (merge : String → List String → String)
    (question initial_answer : String) (num_variants num_iterations : Nat) : String :=
  let variants := (List.range num_variants).map (fun i => variantGen i question initial_answer)
  let evolved := variants.map (fun v => evolve_variant evalAnswer revise question v num_iterations)
  merge question evolved

/-- `SearchResult` (the `timestamp` field, filled by `datetime.now()`, is
environment-supplied and modelled as the empty string; no claim concerns it). -/
structure SearchResult where
  question : String
  answer : String
  sources : List String := []
  timestamp : String := ""
  score : ℚ := 0
deriving DecidableEq

/-- `AgentState`, with the dataclass defaults of the source (`plan` and
`metadata` default to empty dicts). -/
structure AgentState where
  query : String
  brief : String := ""
  plan : Json := .obj []
  search_history : List SearchResult := []
  draft_report : String := ""
  revision_count : Nat := 0
  final_report : String := ""
  metadata : Json := .obj []

/-- `AgentState.add_search_result` (Python default `sources=None`,
then `sources or []`). -/
def AgentState.add_search_result (s : AgentState) (question answer : String)
    (sources : Option (List String)) : AgentState :=
  { s with search_history :=
      s.search_history ++ [{ question := question, answer := answer,
                             sources := sources.getD [] }] }

/-- `AgentState.update_draft`. -/
def AgentState.update_draft (s : AgentState) (new_draft : String) : AgentState :=
  { s with draft_report := new_draft, revision_count := s.revision_count + 1 }

/-- Python `dict.get(key)` on a JSON object (`None`, i.e. `none`, when the
key is absent; the code only calls `.get` on parsed dicts). -/
def Json.get? : Json → String → Option Json
  | .obj l, k => (l.find? (fun p => p.1 == k)).map Prod.snd
  | _, _ => none

/-- Rendering of a JSON value inside a Python f-string (`str()`); every
claim only exercises string values here, and the remaining shapes are
rendered structurally. -/
def Json.display : Json → String
  | .str s => s
  | .null => "None"
  | .bool true => "True"
  | .bool false => "False"
  | .num q => toString q
  | .arr _ => "[...]"
  | .obj _ => "\x7b...\x7d"

/-- `plan.get("sections", [])`, which the code then iterates as a list
(a non-list value would raise in Python, a path no claim reaches). -/
def jsonSections (plan : Json) : List Json :=
  match plan.get? "sections" with
  | some (.arr l) => l
  | _ => []

/-- `section.get('title', 'Section')` as rendered into the f-string. -/
def sectionTitle (sec : Json) : String :=
  match sec.get? "title" with
  | some t => t.display
  | none => "Section"

/-- `section.get("questions", [])` as a list. -/
def sectionQuestions (sec : Json) : List Json :=
  match sec.get? "questions" with
  | some (.arr l) => l
  | _ => []

/-- The lines `_format_plan` emits for one (1-based numbered) section. -/
def sectionLines (i : Nat) (sec : Json) : List String :=
  (toString i ++ ". " ++ sectionTitle sec)
    :: ((sectionQuestions sec).take 3).map (fun q => "   - " ++ q.display)

/-- `TTDDRAgent._format_plan`. -/
def format_plan (plan : Json) : String :=
  joinNL ((jsonSections plan).mapIdx (fun i sec => sectionLines (i + 1) sec)).flatten

/-- Python `l[-n:]`. -/
def lastN (n : Nat) (l : List α) : List α := l.drop (l.length - n)

/-- Python `"\n\n".join(lines)`. -/
def joinNN : List String → String
  | [] => ""
  | [l] => l
  | l :: l2 :: rest => l ++ "\n\n" ++ joinNN (l2 :: rest)

/-- The `previous` prompt field of `_generate_search_question`:
`"\n".join(f"{i+1}. {r.question}" for i, r in enumerate(history[-5:]))
or "None"`. -/
def previousField (history : List SearchResult) : String :=
  let s := joinNL ((lastN 5 history).enum.map
    (fun p => toString (p.1 + 1) ++ ". " ++ p.2.question))
  if s = "" then "None" else s

/-- The `draft` prompt field of `_generate_search_question`:
`state.draft_report[:500] if state.draft_report else "No draft"`. -/
def draftField (draft : String) : String :=
  if draft = "" then "No draft" else pyTake draft 500

/-- Oracles for the direct-call agent: each field stands for one hosted
service round-trip, a pure function of exactly the data the code puts
into the corresponding prompt (`variantGen`, `judge`, `revise`, `merge`
are the model calls inside `SelfEvolution`/`LLMEvaluator`). -/
structure Fns where
  genQ : String → String → String → String → String
  webSearch : String → String
  kb : String → String
  synthesize : String → String → String → String
  variantGen : Nat → String → String → String
  judge : String → String → String
  revise : String → String → String → String
  merge : String → List String → String
  denoise : String → String → String
  planResponse : String → String
  initialDraft : String → String → String → String
  finalReport : String → String → String → String → String

/-- `self.self_evolution.evolve_answer(question, answer, num_variants=2)`
exactly as the direct-call loop invokes it (`num_iterations` keeps its
default of 1). -/
def evolveCall (F : Fns) (question answer : String) : String :=
  evolve_answer F.variantGen (evaluate_answer F.judge) F.revise F.merge
    question answer 2 1

/-- `TTDDRAgent._generate_search_question`: one model call whose prompt
fields are the address, the formatted plan, the `previous` sliding window
and the truncated draft; the reply is `.strip()`-ped. -/
def generate_search_question (F : Fns) (s : AgentState) : String :=
  pyStrip (F.genQ s.query (format_plan s.plan)
    (previousField s.search_history) (draftField s.draft_report))

/-- The answer `TTDDRAgent._search_and_answer` returns: the web-search
call, the (optional, error-swallowed) knowledge-base lookup modelled by
the `kb` oracle, and the synthesis model call with the direct variant's
truncation budgets. -/
def synth_answer (F : Fns) (question : String) : String :=
  let web_results := F.webSearch question
  let kb_results := F.kb question
  F.synthesize question (pyTake web_results 2000)
    (if kb_results = "" then "N/A" else pyTake kb_results 1000)

/-- `TTDDRAgent._search_and_answer`: besides the answer, it reports the
web-search queries issued (exactly one, the question verbatim), so
theorems can observe when the search service is called. -/
def search_and_answer (F : Fns) (question : String) : String × List String :=
  (synth_answer F question, [question])

/-- `TTDDRAgent._denoise_draft`. -/
def denoise_draft (F : Fns) (s : AgentState) : String :=
  let latest := if s.search_history = [] then [] else lastN 3 s.search_history
  let latest_text := joinNN (latest.map
    (fun r => "Q: " ++ r.question ++ "\nA: " ++ r.answer))
  F.denoise s.draft_report latest_text

/-- The constructor flags of `TTDDRAgent` that the control loop reads. -/
structure Agent where
  max_search_steps : Nat := 20
  use_self_evolution : Bool := true
  use_diffusion : Bool := true

/-- Observation of one iteration of `_iterative_search_and_refine`: either
the loop broke before searching (recording the stripped question), or the
iteration ran to the end (recording the question, the answer as
synthesized, and the answer as stored after optional self-evolution). -/
inductive StepOutcome where
  | exited (question : String)
  | completed (question synthesized stored : String)
deriving DecidableEq

/-- The `for step in range(...)` body of `_iterative_search_and_refine`,
from loop index `step` with `fuel` indices remaining.  Besides the final
state it returns the per-iteration trace and the web-search queries
issued. -/
def loopFrom (A : Agent) (F : Fns) :
    AgentState → Nat → Nat → AgentState × List StepOutcome × List String
  | s, _, 0 => (s, [], [])
  | s, step, fuel+1 =>
    let question := generate_search_question F s
    if question = "" ∨ question = "DONE" then (s, [.exited question], [])
    else
      let synthesized := synth_answer F question
      let answer :=
        if A.use_self_evolution = true ∧ step % 3 = 0
        then evolveCall F question synthesized else synthesized
      let s1 := s.add_search_result question answer none
      let s2 := if A.use_diffusion then s1.update_draft (denoise_draft F s1) else s1
      let r := loopFrom A F s2 (step + 1) fuel
      (r.1, .completed question synthesized answer :: r.2.1, question :: r.2.2)

/-- `TTDDRAgent._iterative_search_and_refine`. -/
def iterative_search_and_refine (A : Agent) (F : Fns) (s : AgentState) :
    AgentState × List StepOutcome × List String :=
  loopFrom A F s 0 A.max_search_steps

/-- `full_query` as built inside `ResearchPlanner.generate_plan`. -/
def fullQuery (query brief : String) : String :=
  "Address: " ++ query ++ (if brief = "" then "" else "\nBrief: " ++ brief)

/-- `research_text` in `_generate_final_report`. -/
def researchText (history : List SearchResult) : String :=
  joinNN (history.map (fun r => "Q: " ++ r.question ++ "\nA: " ++ r.answer))

/-- The state `run` hands to the loop: fresh state, plan assigned, and —
when `use_diffusion` — the initial draft assigned directly (bypassing
`update_draft`). -/
def preLoopState (A : Agent) (F : Fns) (address brief : String)
    (plan : Json) : AgentState :=
  let s0 : AgentState := { query := address, brief := brief, plan := plan }
  if A.use_diffusion then
    { s0 with draft_report :=
        (F.initialDraft s0.query
          (if s0.brief = "" then "General feasibility assessment" else s0.brief)
          (format_plan s0.plan)) }
  else s0

/-- `state.final_report = self._generate_final_report(state)` at the end
of `run`. -/
def withFinalReport (A : Agent) (F : Fns) (s : AgentState) : AgentState :=
  { s with final_report :=
      (F.finalReport s.query
        (if s.brief = "" then "General feasibility assessment" else s.brief)
        (researchText s.search_history)
        (if A.use_diffusion then s.draft_report else "")) }

/-- `TTDDRAgent.run`: plan, optional initial draft, the iterative loop,
then the final report.  An uncaught planner exception aborts the run
(`Except.error`).  Returns the final state with the loop's trace and
web-search queries. -/
def run (A : Agent) (F : Fns) (address brief : String) :
    Except Unit (AgentState × List StepOutcome × List String) :=
  match generate_plan (F.planResponse (fullQuery address brief)) address with
  | .error e => .error e
  | .ok plan =>
    let r := iterative_search_and_refine A F (preLoopState A F address brief plan)
    .ok (withFinalReport A F r.1, r.2.1, r.2.2)

/-- The `TTDDRGraphState` TypedDict (messages are modelled by their string
contents; the `operator.add` reducer concatenates them). -/
structure GState where
  messages : List String := []
  address : String := ""
  brief : String := ""
  plan : Json := .obj []
  search_history : List (String × String) := []
  draft_report : String := ""
  final_report : String := ""
  step_count : Nat := 0

/-- Oracles for the graph variant, one per hosted round-trip, mirroring
`Fns` for the prompts `search_node`/`denoise_node` build. -/
structure GFns where
  genQ : String → Nat → String → String → String
  webSearch : String → String
  kb : String → String
  synthesize : String → String → String → String
  variantGen : Nat → String → String → String
  judge : String → String → String
  revise : String → String → String → String
  merge : String → List String → String
  denoise : String → String → String

/-- `self_evolution.evolve_answer(question, answer, num_variants=2,
num_iterations=1)` as `search_node` invokes it. -/
def evolveCallG (G : GFns) (question answer : String) : String :=
  evolve_answer G.variantGen (evaluate_answer G.judge) G.revise G.merge
    question answer 2 1

/-- The bulleted `plan` prompt field of `search_node`. -/
def gPlanText (plan : Json) : String :=
  joinNL ((jsonSections plan).map (fun sec => "• " ++ sectionTitle sec))

/-- The `history` prompt field of `search_node`:
`"\n".join(f"{i+1}. {q}" for i, (q, _) in enumerate(history[-3:]))
if history else "None"`. -/
def gHistoryText (history : List (String × String)) : String :=
  if history = [] then "None"
  else joinNL ((lastN 3 history).enum.map
    (fun p => toString (p.1 + 1) ++ ". " ++ p.2.1))

/-- The stripped question `search_node` generates. -/
def gQuestion (G : GFns) (s : GState) : String :=
  pyStrip (G.genQ s.address (s.step_count + 1)
    (gPlanText s.plan) (gHistoryText s.search_history))

/-- The answer `search_node` synthesizes for `question`: the web-search
call, the optional knowledge-base lookup, and the synthesis model call
with the graph variant's truncation budgets. -/
def gSynth (G : GFns) (question : String) : String :=
  let web_results := G.webSearch question
  let kb_results := G.kb question
  G.synthesize question (pyTake web_results 1500)
    (if kb_results = "" then "N/A" else pyTake kb_results 500)

/-- `search_node`'s self-evolution trigger: `step % 2 == 0 and step > 0`. -/
def gEvolving (step : Nat) : Prop := step % 2 = 0 ∧ 0 < step

instance (step : Nat) : Decidable (gEvolving step) := by
  unfold gEvolving
  infer_instance

/-- `search_node` of the graph variant.  Returns the updated state
(TypedDict merge semantics: the returned keys overwrite, `messages`
concatenate) together with the web-search queries issued. -/
def search_node (G : GFns) (s : GState) : GState × List String :=
  let question := gQuestion G s
  if pyContains "DONE".data (pyUpper question.data) = true ∨ 2 ≤ s.step_count then
    ({ s with messages := s.messages ++ ["✓ Research complete"] }, [])
  else
    let answer := gSynth G question
    let stored := if gEvolving s.step_count then evolveCallG G question answer else answer
    let msgs := ("🔍 Step " ++ toString (s.step_count + 1) ++ ": "
        ++ pyTake question 80 ++ "...")
      :: (if gEvolving s.step_count then ["🧬 Self-evolution"] else [])
    ({ s with search_history := s.search_history ++ [(question, stored)],
              step_count := s.step_count + 1,
              messages := s.messages ++ msgs }, [question])

/-- `denoise_node` of the graph variant. -/
def denoise_node (G : GFns) (s : GState) : GState :=
  if s.search_history = [] then
    { s with messages := s.messages ++ ["⚠️ No research"] }
  else
    let latest := if 2 ≤ s.search_history.length
      then lastN 2 s.search_history else s.search_history
    let latest_text := joinNN (latest.map (fun p => "Q: " ++ p.1 ++ "\nA: " ++ p.2))
    { s with
        draft_report := G.denoise (pyTake s.draft_report 1500) latest_text,
        messages := s.messages ++
          ["📝 Denoised (revision " ++ toString s.step_count ++ ")"] }

/-- The three node labels the two routers can name. -/
inductive Route where
  | denoise | search | final_report
deriving DecidableEq

/-- `should_continue_search`. -/
def should_continue_search (s : GState) : Route :=
  if 2 ≤ s.step_count ∨
      (s.messages ≠ [] ∧
        pyContains "complete".data (pyLower (s.messages.getLast?.getD "").data) = true)
  then .final_report else .denoise

/-- `after_denoise_routing`. -/
def after_denoise_routing (s : GState) : Route :=
  if 2 ≤ s.step_count then .final_report else .search

/-- The cyclic part of the compiled graph: run `search`, route, possibly
`denoise`, route, repeat.  Returns the state at the point both routers
send control to `final_report`, paired with every web-search query issued.
Total by well-founded recursion: a pass that loops back has incremented
`step_count`, which the routers cap at 2. -/
def graphSearchLoop (G : GFns) (s : GState) : GState × List String :=
  let r1 := search_node G s
  if hc : should_continue_search r1.1 = Route.final_report then r1
  else
    let s2 := denoise_node G r1.1
    if h : after_denoise_routing s2 = Route.search then
      let r3 := graphSearchLoop G s2
      (r3.1, r1.2 ++ r3.2)
    else (s2, r1.2)
termination_by 2 - s.step_count
decreasing_by
  have h2 : ∀ t : GState, (denoise_node G t).step_count = t.step_count := by
    intro t
    unfold denoise_node
    by_cases ht : t.search_history = [] <;> simp [ht]
  have h1 : (search_node G s).1.step_count = s.step_count + 1 := by
    have hx : ¬ should_continue_search (search_node G s).1 = Route.final_report := hc
    unfold search_node at hx ⊢
    by_cases hd : pyContains "DONE".data (pyUpper (gQuestion G s).data) = true
        ∨ 2 ≤ s.step_count
    · exfalso
      apply hx
      simp only [hd, if_pos]
      unfold should_continue_search
      simp only [List.getLast?_concat]
      have hcomp : pyContains "complete".data
          (pyLower (("✓ Research complete" : String)).data) = true := by decide
      simp [hcomp]
    · simp [hd]
  have h3 : after_denoise_routing (denoise_node G (search_node G s).1) = Route.search := h
  unfold after_denoise_routing at h3
  split at h3
  · exact absurd h3 (by simp)
  · rename_i hlt
    rw [h2, h1] at hlt
    rw [h2, h1]
    omega

/-- Number of completed (non-exit) iterations of a direct-loop trace. -/
def countCompleted (tr : List StepOutcome) : Nat :=
  tr.countP (fun o => match o with
    | .completed _ _ _ => true
    | .exited _ => false)

/-- The `SearchResult`s the completed iterations of a trace appended. -/
def completedResults (tr : List StepOutcome) : List SearchResult :=
  tr.filterMap (fun o => match o with
    | .completed q _ a => some { question := q, answer := a }
    | .exited _ => none)

/-- The questions of the completed iterations of a trace, in order. -/
def completedQuestions (tr : List StepOutcome) : List String :=
  tr.filterMap (fun o => match o with
    | .completed q _ _ => some q
    | .exited _ => none)

/-- Stated from the claim's words, for comparison with the source's
`previousField`: the last five prior questions presented most recent
first, numbered from 1. -/
def previousFieldMostRecentFirst (history : List SearchResult) : String :=
  let s := joinNL (((lastN 5 history).reverse).enum.map
    (fun p => toString (p.1 + 1) ++ ". " ++ p.2.question))
  if s = "" then "None" else s

/-- The numbered lines `i. q`, `i+1. q'`, … over a question list. -/
def numberLines : Nat → List String → List String
  | _, [] => []
  | i, q :: qs => (toString i ++ ". " ++ q) :: numberLines (i + 1) qs

/-- Stated from the amended claim, structured independently of the
source's `previousField`: the window is the five most recent questions,
presented in chronological order (most recent last) and numbered from 1. -/
def previousFieldChron (history : List SearchResult) : String :=
  let s := joinNL (numberLines 1
    (((history.reverse.take 5).reverse).map SearchResult.question))
  if s = "" then "None" else s

/-- A concrete oracle assignment exercising the direct-call pipeline: the
question model answers `Q1`, then `Q2`, then the sentinel, keyed on the
`previous` window it is shown; the judge always answers `Score: 9`. -/
def F1 : Fns where
  genQ := fun _ _ prev _ =>
    if prev = "None" then "Q1" else if prev = "1. Q1" then "Q2" else "DONE"
  webSearch := fun _ => "w"
  kb := fun _ => ""
  synthesize := fun _ _ _ => "A"
  variantGen := fun _ _ _ => "V"
  judge := fun _ _ => "Score: 9"
  revise := fun _ _ _ => "Rv"
  merge := fun _ _ => "M"
  denoise := fun _ _ => "D"
  planResponse := fun _ => "not structured data"
  initialDraft := fun _ _ _ => "I"
  finalReport := fun _ _ _ _ => "FR"

/-- Agent flags for the concrete runs: diffusion on, self-evolution off,
budget 5. -/
def A1 : Agent where
  max_search_steps := 5
  use_self_evolution := false
  use_diffusion := true

/-- A concrete graph-side oracle assignment. -/
def G1 : GFns where
  genQ := fun _ _ _ _ => "What zoning?"
  webSearch := fun _ => "w"
  kb := fun _ => ""
  synthesize := fun _ _ _ => "A"
  variantGen := fun _ _ _ => "V"
  judge := fun _ _ => "Score: 9"
  revise := fun _ _ _ => "Rv"
  merge := fun _ _ => "M"
  denoise := fun _ _ => "D"

/-- Six prior results with questions `a`–`f`, a concrete window input. -/
def sampleHistory : List SearchResult :=
  [{ question := "a", answer := "" }, { question := "b", answer := "" },
   { question := "c", answer := "" }, { question := "d", answer := "" },
   { question := "e", answer := "" }, { question := "f", answer := "" }]

theorem loopFrom_trace_length (A : Agent) (F : Fns) :
    ∀ (s : AgentState) (step fuel : Nat),
      (loopFrom A F s step fuel).2.1.length ≤ fuel := by
  intro s step fuel
  induction fuel generalizing s step with
  | zero => simp [loopFrom]
  | succ n ih =>
    rw [loopFrom]
    by_cases h : generate_search_question F s = "" ∨ generate_search_question F s = "DONE"
    · simp [h]
    · simp only [h, if_false]
      simpa using ih _ (step + 1)

theorem loopFrom_search_history (A : Agent) (F : Fns) :
    ∀ (s : AgentState) (step fuel : Nat),
      (loopFrom A F s step fuel).1.search_history
        = s.search_history ++ completedResults (loopFrom A F s step fuel).2.1 := by
  intro s step fuel
  induction fuel generalizing s step with
  | zero => simp [loopFrom, completedResults]
  | succ n ih =>
    rw [loopFrom]
    by_cases h : generate_search_question F s = "" ∨ generate_search_question F s = "DONE"
    · simp [h, completedResults]
    · simp only [h, if_false]
      rw [ih _ (step + 1)]
      by_cases hd : A.use_diffusion = true <;>
        simp [hd, completedResults, AgentState.update_draft,
          AgentState.add_search_result]

theorem loopFrom_revision_count (A : Agent) (F : Fns) :
    ∀ (s : AgentState) (step fuel : Nat),
      (loopFrom A F s step fuel).1.revision_count
        = s.revision_count +
          (if A.use_diffusion = true
           then countCompleted (loopFrom A F s step fuel).2.1 else 0) := by
  intro s step fuel
  induction fuel generalizing s step with
  | zero => simp [loopFrom, countCompleted]
  | succ n ih =>
    rw [loopFrom]
    by_cases h : generate_search_question F s = "" ∨ generate_search_question F s = "DONE"
    · simp [h, countCompleted]
    · simp only [h, if_false]
      rw [ih _ (step + 1)]
      by_cases hd : A.use_diffusion = true <;>
        simp [hd, countCompleted, AgentState.update_draft,
          AgentState.add_search_result] <;> omega

theorem loopFrom_web_queries (A : Agent) (F : Fns) :
    ∀ (s : AgentState) (step fuel : Nat),
      (loopFrom A F s step fuel).2.2
        = completedQuestions (loopFrom A F s step fuel).2.1 := by
  intro s step fuel
  induction fuel generalizing s step with
  | zero => simp [loopFrom, completedQuestions]
  | succ n ih =>
    rw [loopFrom]
    by_cases h : generate_search_question F s = "" ∨ generate_search_question F s = "DONE"
    · simp [h, completedQuestions]
    · simp only [h, if_false]
      rw [ih _ (step + 1)]
      simp [completedQuestions]

theorem loopFrom_stored_answer (A : Agent) (F : Fns) :
    ∀ (fuel : Nat) (s : AgentState) (step i : Nat) (q a0 a : String),
      (loopFrom A F s step fuel).2.1[i]? = some (.completed q a0 a) →
      a = (if A.use_self_evolution = true ∧ (step + i) % 3 = 0
           then evolveCall F q a0 else a0) := by
  intro fuel
  induction fuel with
  | zero => intro s step i q a0 a h; simp [loopFrom] at h
  | succ n ih =>
    intro s step i q a0 a h
    rw [loopFrom] at h
    by_cases hq : generate_search_question F s = "" ∨ generate_search_question F s = "DONE"
    · simp [hq] at h
      rcases i with _ | j <;> simp_all
    · simp only [hq, if_false] at h
      rcases i with _ | j
      · simp at h
        obtain ⟨h1, h2, h3⟩ := h
        subst h1 h2 h3
        simp
      · simp at h
        have := ih _ (step + 1) j q a0 a h
        rw [this]
        have harith : step + 1 + j = step + (j + 1) := by omega
        rw [harith]

theorem search_node_cases (G : GFns) (s : GState) :
    ((search_node G s).1 = { s with messages := s.messages ++ ["✓ Research complete"] }
      ∧ (search_node G s).2 = [])
    ∨ (s.step_count < 2 ∧
       (search_node G s).1.step_count = s.step_count + 1 ∧
       (∃ e, (search_node G s).1.search_history = s.search_history ++ [e])) := by
  unfold search_node
  by_cases hd : pyContains "DONE".data (pyUpper (gQuestion G s).data) = true
      ∨ 2 ≤ s.step_count
  · left; simp [hd]
  · right
    have h2 : s.step_count < 2 := by
      by_contra hge
      exact hd (Or.inr (by omega))
    refine ⟨h2, ?_, ?_⟩ <;> simp [hd]

theorem should_continue_final_of_ge (t : GState) (h : 2 ≤ t.step_count) :
    should_continue_search t = Route.final_report := by
  unfold should_continue_search
  rw [if_pos (Or.inl h)]

theorem should_continue_final_of_complete (t : GState) (m : List String)
    (h : t.messages = m ++ ["✓ Research complete"]) :
    should_continue_search t = Route.final_report := by
  unfold should_continue_search
  rw [if_pos]
  right
  constructor
  · rw [h]; simp
  · rw [h, List.getLast?_concat]
    decide

theorem denoise_node_frame (G : GFns) (t : GState) :
    (denoise_node G t).step_count = t.step_count ∧
    (denoise_node G t).search_history = t.search_history := by
  unfold denoise_node
  by_cases ht : t.search_history = [] <;> simp [ht]

theorem graphSearchLoop_eq (G : GFns) (s : GState) :
    graphSearchLoop G s =
      if should_continue_search (search_node G s).1 = Route.final_report
      then search_node G s
      else if after_denoise_routing (denoise_node G (search_node G s).1) = Route.search
        then ((graphSearchLoop G (denoise_node G (search_node G s).1)).1,
              (search_node G s).2
                ++ (graphSearchLoop G (denoise_node G (search_node G s).1)).2)
        else (denoise_node G (search_node G s).1, (search_node G s).2) := by
  rw [graphSearchLoop]
  by_cases h1 : should_continue_search (search_node G s).1 = Route.final_report
  · simp [h1]
  · by_cases h2 : after_denoise_routing (denoise_node G (search_node G s).1)
        = Route.search <;> simp [h1, h2]

theorem graphSearchLoop_history_bound (G : GFns) :
    ∀ (n : Nat) (s : GState), 2 - s.step_count ≤ n →
      ∃ t, (graphSearchLoop G s).1.search_history = s.search_history ++ t ∧
        t.length ≤ 2 - s.step_count := by
  intro n
  induction n with
  | zero =>
    intro s h0
    have h2 : 2 ≤ s.step_count := by omega
    rcases search_node_cases G s with ⟨heq, _⟩ | ⟨hlt, _, _⟩
    · have hfin : should_continue_search (search_node G s).1 = Route.final_report := by
        rw [heq]
        exact should_continue_final_of_ge _ (by simpa using h2)
      rw [graphSearchLoop_eq, if_pos hfin, heq]
      exact ⟨[], by simp, by simp⟩
    · omega
  | succ n ih =>
    intro s hle
    by_cases hfin : should_continue_search (search_node G s).1 = Route.final_report
    · rw [graphSearchLoop_eq, if_pos hfin]
      rcases search_node_cases G s with ⟨heq, _⟩ | ⟨hlt, _, ⟨e, he⟩⟩
      · exact ⟨[], by rw [heq]; simp, by simp⟩
      · exact ⟨[e], he, by simp; omega⟩
    · rw [graphSearchLoop_eq, if_neg hfin]
      rcases search_node_cases G s with ⟨heq, _⟩ | ⟨hlt, hstep, ⟨e, he⟩⟩
      · exact absurd (should_continue_final_of_complete _ s.messages
          (by rw [heq])) hfin
      · have hd := denoise_node_frame G (search_node G s).1
        by_cases hr : after_denoise_routing (denoise_node G (search_node G s).1)
            = Route.search
        · rw [if_pos hr]
          have hs2step : (denoise_node G (search_node G s).1).step_count
              = s.step_count + 1 := by rw [hd.1, hstep]
          obtain ⟨t', ht', hlen⟩ :=
            ih (denoise_node G (search_node G s).1) (by omega)
          refine ⟨e :: t', ?_, ?_⟩
          · rw [ht', hd.2, he]
            simp
          · rw [hs2step] at hlen
            simp only [List.length_cons]
            omega
        · rw [if_neg hr]
          refine ⟨[e], ?_, by simp; omega⟩
          rw [hd.2, he]

/-- C1: for every step budget, the direct-call loop
`_iterative_search_and_refine` performs at most `max_search_steps`
iterations — the trace records one entry per loop iteration, so trace
length, completed-iteration count and web-search call count are all
bounded by the budget — and the graph variant's search loop appends at
most `2 - step_count` further search results (at most 2 from a fresh
state).  Both loops are total Lean functions — `graphSearchLoop` by
well-founded recursion on `2 - step_count` — so each terminates for every
oracle, i.e. regardless of what text the model returns at any step. -/
theorem search_loop_budget (A : Agent) (F : Fns) (s : AgentState)
    (G : GFns) (gs : GState) :
    (iterative_search_and_refine A F s).2.1.length ≤ A.max_search_steps ∧
    countCompleted (iterative_search_and_refine A F s).2.1 ≤ A.max_search_steps ∧
    (iterative_search_and_refine A F s).2.2.length ≤ A.max_search_steps ∧
    ∃ t, (graphSearchLoop G gs).1.search_history = gs.search_history ++ t ∧
      t.length ≤ 2 - gs.step_count := by
  refine ⟨loopFrom_trace_length A F s 0 A.max_search_steps, ?_, ?_, ?_⟩
  · exact le_trans (List.countP_le_length _)
      (loopFrom_trace_length A F s 0 A.max_search_steps)
  · rw [iterative_search_and_refine, loopFrom_web_queries, completedQuestions]
    exact le_trans (List.length_filterMap_le _ _)
      (loopFrom_trace_length A F s 0 A.max_search_steps)
  · exact graphSearchLoop_history_bound G (2 - gs.step_count) gs le_rfl

/-- C9: every state operation either leaves `search_history` unchanged or
appends exactly one result at the end: `add_search_result` appends the
single new record, `update_draft` leaves the history untouched, the
direct-call loop only ever appends the completed iterations' results in
order, the graph's `search_node` appends at most one pair,
`denoise_node` leaves the history untouched, and the graph loop only
extends the history — so its length is monotonically non-decreasing and
no entry is ever removed or reordered. -/
theorem search_history_append_only (s : AgentState) (q a : String)
    (src : Option (List String)) (d : String)
    (A : Agent) (F : Fns) (step fuel : Nat) (G : GFns) (gs : GState) :
    (s.add_search_result q a src).search_history
      = s.search_history ++ [{ question := q, answer := a, sources := src.getD [] }] ∧
    (s.update_draft d).search_history = s.search_history ∧
    (loopFrom A F s step fuel).1.search_history
      = s.search_history ++ completedResults (loopFrom A F s step fuel).2.1 ∧
    ((search_node G gs).1.search_history = gs.search_history ∨
      ∃ e, (search_node G gs).1.search_history = gs.search_history ++ [e]) ∧
    (denoise_node G gs).search_history = gs.search_history ∧
    ∃ t, (graphSearchLoop G gs).1.search_history = gs.search_history ++ t := by
  refine ⟨rfl, rfl, loopFrom_search_history A F s step fuel, ?_,
    (denoise_node_frame G gs).2, ?_⟩
  · rcases search_node_cases G gs with ⟨heq, _⟩ | ⟨_, _, ⟨e, he⟩⟩
    · left; rw [heq]
    · right; exact ⟨e, he⟩
  · obtain ⟨t, ht, _⟩ := graphSearchLoop_history_bound G (2 - gs.step_count) gs le_rfl
    exact ⟨t, ht⟩

/-- C10: `update_draft` sets `draft_report` to exactly the new draft,
increments `revision_count` by exactly 1, and leaves every other field of
the state (`query`, `brief`, `plan`, `search_history`, `final_report`,
`metadata`) unchanged. -/
theorem update_draft_frame (s : AgentState) (new_draft : String) :
    (s.update_draft new_draft).draft_report = new_draft ∧
    (s.update_draft new_draft).revision_count = s.revision_count + 1 ∧
    (s.update_draft new_draft).query = s.query ∧
    (s.update_draft new_draft).brief = s.brief ∧
    (s.update_draft new_draft).plan = s.plan ∧
    (s.update_draft new_draft).search_history = s.search_history ∧
    (s.update_draft new_draft).final_report = s.final_report ∧
    (s.update_draft new_draft).metadata = s.metadata :=
  ⟨rfl, rfl, rfl, rfl, rfl, rfl, rfl, rfl⟩

theorem searchScore_eq_none_of_no_label (content : List Char)
    (h : hasCaselessLit "Score:".data content = false) :
    searchScore content = none := by
  induction content with
  | nil => rfl
  | cons c rest ih =>
    rw [hasCaselessLit, Bool.or_eq_false_iff] at h
    have hm : matchLit "Score:".data (c :: rest) = none := by
      rcases hmm : matchLit "Score:".data (c :: rest) with _ | r
      · rfl
      · rw [hmm] at h
        simp at h
    have hz : matchScoreHere (c :: rest) = none := by
      unfold matchScoreHere
      rw [hm]
    rw [searchScore, hz]
    exact ih h.2

theorem searchFeedback_eq_none_of_no_label (content : List Char)
    (h : hasCaselessLit "Feedback:".data content = false) :
    searchFeedback content = none := by
  induction content with
  | nil => rfl
  | cons c rest ih =>
    rw [hasCaselessLit, Bool.or_eq_false_iff] at h
    have hm : matchLit "Feedback:".data (c :: rest) = none := by
      rcases hmm : matchLit "Feedback:".data (c :: rest) with _ | r
      · rfl
      · rw [hmm] at h
        simp at h
    have hz : matchFeedbackHere (c :: rest) = none := by
      unfold matchFeedbackHere
      rw [hm]
    rw [searchFeedback, hz]
    exact ih h.2

/-- C5: evaluator extraction is a pure function of the response text: on
`"Score: 7.5\nFeedback: looks good"` it yields the pair
`(7.5, "looks good")`; on any text with no (case-insensitive) `Score:`
label the score defaults to `5.0`; on any text with no `Feedback:` label
the feedback is the entire response text. -/
theorem evaluator_extraction (c1 c2 : List Char)
    (h1 : hasCaselessLit "Score:".data c1 = false)
    (h2 : hasCaselessLit "Feedback:".data c2 = false) :
    extract_score "Score: 7.5\nFeedback: looks good".data = 7.5 ∧
    extract_feedback "Score: 7.5\nFeedback: looks good".data
      = "looks good".data ∧
    extract_score c1 = 5 ∧ extract_feedback c2 = c2 := by
  refine ⟨?_, by decide, ?_, ?_⟩
  · have hs : searchScore "Score: 7.5\nFeedback: looks good".data
        = some ['7', '.', '5'] := by decide
    have e2 : digitsToNat ['7'] = 7 := by decide
    have e3 : digitsToNat ['5'] = 5 := by decide
    rw [extract_score, hs]
    show (digitsToNat ['7'] : ℚ) + (digitsToNat ['5'] : ℚ) / 10 ^ (['5'].length) = 7.5
    rw [e2, e3]
    norm_num
  · rw [extract_score, searchScore_eq_none_of_no_label c1 h1]
  · rw [extract_feedback, searchFeedback_eq_none_of_no_label c2 h2]

/-- Witness for `evaluator_extraction` at a concrete label-free text. -/
theorem evaluator_extraction_witness :
    extract_score "no label here".data = 5 ∧
    extract_feedback "no label here".data = "no label here".data :=
  ⟨(evaluator_extraction "no label here".data "no label here".data
      (by decide) (by decide)).2.2.1,
   (evaluator_extraction "no label here".data "no label here".data
      (by decide) (by decide)).2.2.2⟩

/-- C6: the per-variant evolution loop performs at most `num_iterations`
evaluate-revise rounds (the revision count never exceeds the bound), and
it stops revising as soon as a judge score `≥ 8.0` is observed: a variant
scoring `≥ 8.0` is returned unchanged with zero revisions even when
`num_iterations` is not exhausted; the last conjunct shows the loop's
evaluate-first, revise-only-on-low-score structure. -/
theorem evolve_variant_early_stop
    (E : String → String → ℚ × String) (R : String → String → String → String)
    (q : String) :
    (∀ (w : String) (m : Nat), evolve_revisions E R q w m ≤ m) ∧
    (∀ (w : String) (m : Nat), 8 ≤ (E q w).1 →
      evolve_variant E R q w m = w ∧ evolve_revisions E R q w m = 0) ∧
    (∀ (w : String) (m : Nat),
      evolve_variant E R q w (m + 1)
        = if 8 ≤ (E q w).1 then w
          else evolve_variant E R q (R q w (E q w).2) m) := by
  refine ⟨?_, ?_, fun w m => rfl⟩
  · intro w m
    induction m generalizing w with
    | zero => simp [evolve_revisions]
    | succ k ih =>
      rw [evolve_revisions]
      by_cases h : 8 ≤ (E q w).1
      · rw [if_pos h]
        omega
      · rw [if_neg h]
        have := ih (R q w (E q w).2)
        omega
  · intro w m h8
    cases m with
    | zero => exact ⟨rfl, rfl⟩
    | succ k => exact ⟨by rw [evolve_variant, if_pos h8], by rw [evolve_revisions, if_pos h8]⟩

/-- Witness for `evolve_variant_early_stop`: a judge that scores 9
freezes the variant with zero revisions despite a budget of 5. -/
theorem evolve_variant_early_stop_witness :
    evolve_variant (fun _ _ => ((9 : ℚ), "fb")) (fun _ _ _ => "rev") "q" "v" 5 = "v" ∧
    evolve_revisions (fun _ _ => ((9 : ℚ), "fb")) (fun _ _ _ => "rev") "q" "v" 5 = 0 :=
  (evolve_variant_early_stop (fun _ _ => ((9 : ℚ), "fb"))
    (fun _ _ _ => "rev") "q").2.1 "v" 5 (by decide)

/-- C4 counterexample: on the response text `x{y}` — not valid JSON, but
with extractable outermost braces whose substring `{y}` is also not valid
JSON — the second `json.loads`, sitting inside the `except` handler,
raises an uncaught `JSONDecodeError`; `generate_plan` does raise past the
planning stage, refuting the claim that it never does. -/
theorem generate_plan_raises_counterexample :
    generate_plan "x\x7by\x7d" "q" = Except.error () := by rfl

/-- C4 (amended): `generate_plan` returns the parse of the full response
text when that text is valid JSON; when it is not and no brace-delimited
substring is extractable it degrades, without raising, to the plan with
the single default section whose only question is the original input
query verbatim; when braces are extractable it re-parses the outermost
brace-delimited substring, returning the data parsed from it when that
substring is valid JSON — but when the brace substring itself fails to
parse, the `JSONDecodeError` propagates uncaught. -/
theorem generate_plan_fallback (content query : String) :
    (∀ j, json_loads content = some j → generate_plan content query = .ok j) ∧
    (json_loads content = none →
      ¬ (pyFindChar content.data '\x7b' ≠ -1 ∧
         pyRfindChar content.data '\x7d' + 1 > pyFindChar content.data '\x7b') →
      generate_plan content query = .ok (defaultPlan query)) ∧
    (json_loads content = none →
      (pyFindChar content.data '\x7b' ≠ -1 ∧
         pyRfindChar content.data '\x7d' + 1 > pyFindChar content.data '\x7b') →
      ∀ j, json_loads ⟨pySlice content.data (pyFindChar content.data '\x7b').toNat
        (pyRfindChar content.data '\x7d' + 1).toNat⟩ = some j →
      generate_plan content query = .ok j) ∧
    (json_loads content = none →
      (pyFindChar content.data '\x7b' ≠ -1 ∧
         pyRfindChar content.data '\x7d' + 1 > pyFindChar content.data '\x7b') →
      json_loads ⟨pySlice content.data (pyFindChar content.data '\x7b').toNat
        (pyRfindChar content.data '\x7d' + 1).toNat⟩ = none →
      generate_plan content query = .error ()) := by
  refine ⟨?_, ?_, ?_, ?_⟩
  · intro j hj
    unfold generate_plan
    rw [hj]
  · intro hn hb
    unfold generate_plan
    rw [hn]
    show (if _ ∧ _ then _ else _) = _
    rw [if_neg hb]
  · intro hn hb j hj
    unfold generate_plan
    rw [hn]
    show (if _ ∧ _ then _ else _) = _
    rw [if_pos hb, hj]
  · intro hn hb hsub
    unfold generate_plan
    rw [hn]
    show (if _ ∧ _ then _ else _) = _
    rw [if_pos hb, hsub]

/-- Witness for `generate_plan_fallback`: a brace-free non-JSON response
yields the default single-section plan carrying the query verbatim, and a
non-JSON response with a valid brace-delimited substring yields the data
parsed from that substring. -/
theorem generate_plan_fallback_witness :
    generate_plan "hello" "the original query"
      = .ok (defaultPlan "the original query") ∧
    generate_plan "blah \x7b\"a\": true\x7d" "q"
      = .ok (.obj [("a", .bool true)]) :=
  ⟨(generate_plan_fallback "hello" "the original query").2.1 (by rfl) (by decide),
   (generate_plan_fallback "blah \x7b\"a\": true\x7d" "q").2.2.1
     (by rfl) (by decide) _ (by rfl)⟩

/-- C3 counterexample: a `use_diffusion` run in which the initial draft
stage ran and exactly two completed search iterations preceded the
terminating sentinel step ends with `revision_count = 2`, not `2 + 1`:
the claimed extra `+ 1` for the initial draft stage does not exist (the
initial draft is assigned directly, bypassing `update_draft`). -/
theorem revision_count_counterexample :
    ((run A1 F1 "addr" "").map
        (fun p => (p.1.revision_count, countCompleted p.2.1, p.2.1))
      = .ok (2, 2, [.completed "Q1" "A" "A", .completed "Q2" "A" "A",
                    .exited "DONE"]))
    ∧ A1.use_diffusion = true ∧ ¬ ((2 : Nat) = 2 + 1) :=
  ⟨by rfl, rfl, by omega⟩

/-- C3 (amended): after a run with `use_diffusion` enabled,
`revision_count` equals exactly the number of completed search iterations;
the terminating sentinel step contributes nothing, and the initial draft
stage also contributes nothing, because it is assigned directly rather
than through `update_draft`. -/
theorem revision_count_eq_completed (A : Agent) (F : Fns)
    (address brief : String) (s : AgentState) (tr : List StepOutcome)
    (ws : List String)
    (hrun : run A F address brief = .ok (s, tr, ws))
    (hdiff : A.use_diffusion = true) :
    s.revision_count = countCompleted tr := by
  unfold run at hrun
  cases hp : generate_plan (F.planResponse (fullQuery address brief)) address with
  | error e =>
    rw [hp] at hrun
    exact absurd hrun (by simp)
  | ok plan =>
    rw [hp] at hrun
    simp only [Except.ok.injEq, Prod.mk.injEq] at hrun
    obtain ⟨hs, htr, -⟩ := hrun
    subst hs htr
    have hwf : ∀ t : AgentState, (withFinalReport A F t).revision_count
        = t.revision_count := fun _ => rfl
    have hpre : (preLoopState A F address brief plan).revision_count = 0 := by
      unfold preLoopState
      split <;> rfl
    rw [hwf, iterative_search_and_refine, loopFrom_revision_count, hpre, hdiff]
    simp

/-- Witness for `revision_count_eq_completed` at the concrete run of
`revision_count_counterexample`'s oracles. -/
theorem revision_count_eq_completed_witness :
    (AgentState.mk "addr" "" (defaultPlan "addr")
        [{ question := "Q1", answer := "A" }, { question := "Q2", answer := "A" }]
        "D" 2 "FR" (.obj [])).revision_count
      = countCompleted [.completed "Q1" "A" "A", .completed "Q2" "A" "A",
          .exited "DONE"] :=
  revision_count_eq_completed A1 F1 "addr" "" _ _ ["Q1", "Q2"] (by rfl) rfl

/-- C2 counterexample: with a model that returns only whitespace, the
direct-call loop exits early — before any web-search call, the recorded
query list is empty — at a stripped question `""` that is not the
sentinel `"DONE"`; so "exits early if and only if the question matches
the sentinel" fails (the code tests `not question or question == "DONE"`). -/
theorem sentinel_exit_counterexample :
    iterative_search_and_refine A1 { F1 with genQ := fun _ _ _ _ => "   " }
        { query := "addr" }
      = ({ query := "addr" }, [.exited ""], []) ∧ ("" : String) ≠ "DONE" :=
  ⟨by rfl, by decide⟩

/-- C2 (amended): the direct-call loop exits early exactly when the
stripped question is empty or equals `"DONE"` by exact match, and the
graph's `search_node`, within the step budget, skips the search exactly
when the uppercased question contains `"DONE"`; in every early exit no
web-search call is issued for that step (the second conjunct: the issued
queries are exactly the completed iterations' questions). -/
theorem sentinel_exit_characterization (A : Agent) (F : Fns) (s : AgentState)
    (step fuel : Nat) (hf : 0 < fuel) (G : GFns) (gs : GState)
    (hlt : gs.step_count < 2) :
    ((generate_search_question F s = "" ∨ generate_search_question F s = "DONE")
      ↔ loopFrom A F s step fuel
          = (s, [.exited (generate_search_question F s)], [])) ∧
    (loopFrom A F s step fuel).2.2
      = completedQuestions (loopFrom A F s step fuel).2.1 ∧
    ((pyContains "DONE".data (pyUpper (gQuestion G gs).data) = true)
      ↔ search_node G gs
          = ({ gs with messages := gs.messages ++ ["✓ Research complete"] }, [])) := by
  obtain ⟨fuel, rfl⟩ : ∃ n, fuel = n + 1 := ⟨fuel - 1, by omega⟩
  refine ⟨⟨?_, ?_⟩, loopFrom_web_queries A F s step (fuel + 1), ⟨?_, ?_⟩⟩
  · intro h
    rw [loopFrom, if_pos h]
  · intro heq
    by_contra hq
    rw [loopFrom, if_neg hq] at heq
    simp at heq
  · intro h
    unfold search_node
    rw [if_pos (Or.inl h)]
  · intro heq
    by_contra hq
    have hcond : ¬ (pyContains "DONE".data (pyUpper (gQuestion G gs).data) = true
        ∨ 2 ≤ gs.step_count) := by
      rintro (h | h)
      · exact hq h
      · omega
    unfold search_node at heq
    rw [if_neg hcond] at heq
    simp at heq

/-- Witness for `sentinel_exit_characterization` at concrete oracles and
a fresh graph state. -/
theorem sentinel_exit_characterization_witness :
    (loopFrom A1 F1 { query := "addr" } 0 1).2.2
      = completedQuestions (loopFrom A1 F1 { query := "addr" } 0 1).2.1 :=
  (sentinel_exit_characterization A1 F1 { query := "addr" } 0 1 (by omega)
    G1 {} (by decide)).2.1

/-- C7 counterexample: with six prior questions `a`–`f`, the `previous`
field of the question-generation prompt (observed through an oracle that
echoes that field) is the chronological rendering `1. b … 5. f` — most
recent last — not the claimed most-recent-first rendering `1. f … 5. b`. -/
theorem previous_window_counterexample :
    generate_search_question { F1 with genQ := fun _ _ prev _ => prev }
        { query := "x", search_history := sampleHistory }
      = "1. b\n2. c\n3. d\n4. e\n5. f" ∧
    previousFieldMostRecentFirst sampleHistory
      = "1. f\n2. e\n3. d\n4. c\n5. b" ∧
    ("1. b\n2. c\n3. d\n4. e\n5. f" : String)
      ≠ "1. f\n2. e\n3. d\n4. c\n5. b" :=
  ⟨by rfl, by rfl, by decide⟩

theorem enumFrom_numberLines (l : List SearchResult) :
    ∀ k, (l.enumFrom k).map
        (fun p => toString (p.1 + 1) ++ ". " ++ p.2.question)
      = numberLines (k + 1) (l.map SearchResult.question) := by
  induction l with
  | nil => intro k; rfl
  | cons x xs ih =>
    intro k
    simp only [List.enumFrom, List.map_cons]
    rw [ih (k + 1)]
    rfl

/-- C7 (amended): the question-generation prompt is conditioned on the
last 5 prior questions in chronological order — most recent last,
numbered from 1 (`previousFieldChron`, stated from the amended claim via
reverse-take-reverse and an independent numbering recursion) — and on the
current draft truncated to its first 500 characters (`"No draft"` when
empty). -/
theorem previous_window_chronological (h : List SearchResult) (d : String)
    (hd : ¬ d = "") :
    previousField h = previousFieldChron h ∧
    (draftField d).data = d.data.take 500 ∧
    draftField "" = "No draft" := by
  refine ⟨?_, ?_, rfl⟩
  · unfold previousField previousFieldChron
    have h1 : lastN 5 h = (h.reverse.take 5).reverse :=
      List.rtake_eq_reverse_take_reverse h 5
    rw [h1]
    rw [show ∀ l : List SearchResult, l.enum = l.enumFrom 0 from fun _ => rfl]
    rw [enumFrom_numberLines]
  · unfold draftField
    rw [if_neg hd]
    rfl

/-- Witness for `previous_window_chronological` at the six-question
history and a nonempty draft. -/
theorem previous_window_chronological_witness :
    previousField sampleHistory = previousFieldChron sampleHistory ∧
    (draftField "abc").data = "abc".data.take 500 ∧
    draftField "" = "No draft" :=
  previous_window_chronological sampleHistory "abc" (by decide)

/-- C8: with self-evolution enabled, the stored answer is the evolved
answer exactly on the direct-call loop's steps whose 0-based index is
divisible by 3 (`step % 3 == 0`: the 1st, 4th, 7th, … steps — "every 3rd
step", counting from the first), and exactly on the graph's 0-based steps
that are even and positive (`step % 2 == 0 and step > 0`: every 2nd step
after the first); on all other steps the synthesized answer is stored
unmodified. -/
theorem self_evolution_cadence (A : Agent) (F : Fns) (s : AgentState)
    (i : Nat) (q a0 a : String)
    (h : (iterative_search_and_refine A F s).2.1[i]? = some (.completed q a0 a))
    (G : GFns) (gs : GState) (hlt : gs.step_count < 2)
    (hq : pyContains "DONE".data (pyUpper (gQuestion G gs).data) = false) :
    a = (if A.use_self_evolution = true ∧ i % 3 = 0
         then evolveCall F q a0 else a0) ∧
    (search_node G gs).1.search_history
      = gs.search_history
        ++ [(gQuestion G gs,
             if gEvolving gs.step_count
             then evolveCallG G (gQuestion G gs) (gSynth G (gQuestion G gs))
             else gSynth G (gQuestion G gs))] := by
  constructor
  · have hh := loopFrom_stored_answer A F A.max_search_steps s 0 i q a0 a h
    simpa using hh
  · have hcond : ¬ (pyContains "DONE".data (pyUpper (gQuestion G gs).data) = true
        ∨ 2 ≤ gs.step_count) := by
      rintro (hc | hc)
      · rw [hq] at hc
        exact Bool.false_ne_true hc
      · omega
    unfold search_node
    rw [if_neg hcond]

/-- Witness for `self_evolution_cadence`: on step index 0 (a "3rd step",
`0 % 3 = 0`) with self-evolution on, the stored answer is the evolved
one, here the concrete merge result `"M"`. -/
theorem self_evolution_cadence_witness :
    ("M" : String)
      = (if ({ max_search_steps := 1, use_self_evolution := true,
               use_diffusion := false } : Agent).use_self_evolution = true
            ∧ 0 % 3 = 0
         then evolveCall F1 "Q1" "A" else "A") :=
  (self_evolution_cadence
    { max_search_steps := 1, use_self_evolution := true, use_diffusion := false }
    F1 { query := "addr" } 0 "Q1" "A" "M" (by rfl) G1 {} (by decide) (by decide)).1

end TTDDR
